import Mathlib

set_option autoImplicit false

namespace Mavconn

/-- Modelled from the spec: the Transmit Buffer (class MsgBuffer, declared in the
mavconn interface header, which is not part of this repository snapshot): an
immutable payload paired with a mutable read cursor. -/
structure MsgBuffer where
  data : List Nat
  pos : Nat
deriving DecidableEq

/-- The modulus of the size_t arithmetic of the target platform. -/
def size_t_mod : Nat := 2 ^ 64

/-- Modelled from the spec: remaining bytes of a Transmit Buffer, payload
length minus cursor, with the subtraction performed as the C++ size_t member
performs it: modulo 2 ^ 64. A cursor that has overshot the payload length
therefore yields a huge non zero remainder, not zero. -/
def MsgBuffer.nbytes (b : MsgBuffer) : Nat :=
  (b.data.length % size_t_mod + (size_t_mod - b.pos % size_t_mod)) % size_t_mod

/-- Modelled from the spec: the byte range of a Transmit Buffer from the current
cursor onward, the range handed to each write attempt. -/
def MsgBuffer.dpos (b : MsgBuffer) : List Nat := b.data.drop b.pos

/-- Modelled from the spec: MsgBuffer construction from a raw byte run, cursor zero. -/
def MsgBuffer.mk0 (bytes : List Nat) : MsgBuffer := { data := bytes, pos := 0 }

/-- A resolved network endpoint: address and port. -/
structure Endpoint where
  addr : Nat
  port : Nat
deriving DecidableEq

/-- Embeds resolve_address_tcp (mavconn_tcp.cpp lines 39-60). The resolver outcome
is given as the list of endpoints it produced plus its error flag. The for_each
loop assigns ep := result with the requested port overriding the resolved one and
sets result := true, once per element; after the loop a set error code forces
result := false. The function returns the endpoint when result stayed true. -/
def resolve_address_tcp (results : List Endpoint) (ec : Bool) (port : Nat) :
    Option Endpoint :=
  let folded := results.foldl
    (fun _ q_ep => some { q_ep with port := port }) (none : Option Endpoint)
  if ec then none else folded

/-- State of one MAVConnTCPClient object. The fields mirror the members touched by
mavconn_tcp.cpp plus the observable effects of its asynchronous operations:
posts counts pending posted do_send handlers with check_tx_state true;
outstanding holds the issued async_send requests as pairs of an issue id and the
byte range snapshot passed to the socket; wire accumulates the bytes the socket
has transmitted, in completion order; port_closed_emits counts emissions of the
port_closed signal. tx_in_progress is an Option: none models the member being
left uninitialized by a constructor, some b a definite stored value. -/
structure ClientState where
  socket_open : Bool
  tx_q : List MsgBuffer
  tx_in_progress : Option Bool
  posts : Nat
  outstanding : List (Nat × List Nat)
  nextId : Nat
  wire : List Nat
  port_closed_emits : Nat
  io_running : Bool
deriving DecidableEq

/-- A freshly constructed client object: open socket, empty queue, no pending
work, given value stored in (or absent from) tx_in_progress. -/
def clientFresh (flag : Option Bool) : ClientState :=
  { socket_open := true
    tx_q := []
    tx_in_progress := flag
    posts := 0
    outstanding := []
    nextId := 0
    wire := []
    port_closed_emits := 0
    io_running := true }

/-- Construction time failures (DeviceError in the source). -/
inductive DeviceErr where
  | resolveFailed
deriving DecidableEq

/-- Embeds the client mode constructor (mavconn_tcp.cpp lines 65-93): resolve the
server address (failure throws DeviceError), open and connect the socket, and
start the io thread. The initializer list sets tx_in_progress to false. -/
def MAVConnTCPClient.mk_client_mode (results : List Endpoint) (ec : Bool)
    (port : Nat) : Except DeviceErr ClientState :=
  match resolve_address_tcp results ec port with
  | none => .error .resolveFailed
  | some _ => .ok (clientFresh (some false))

/-- Embeds the server accepted constructor (mavconn_tcp.cpp lines 95-108): wrap
the already connected socket and post do_recv on the owning server io service.
Its initializer list sets only the socket and the peer endpoint; tx_in_progress
is absent from it, hence none here. -/
def MAVConnTCPClient.mk_server_accepted : ClientState := clientFresh none

/-- Embeds MAVConnTCPClient close (mavconn_tcp.cpp lines 114-131): a no op when
the socket is already non open; otherwise stop io processing, close the socket,
delete every queued Transmit Buffer, emit port_closed and join the io thread. -/
def MAVConnTCPClient.close (s : ClientState) : ClientState :=
  if s.socket_open then
    { s with
      socket_open := false
      io_running := false
      tx_q := []
      posts := 0
      outstanding := []
      port_closed_emits := s.port_closed_emits + 1 }
  else s

/-- The assertion style precondition failures raised by ROS_ASSERT calls. -/
inductive ContractViolation where
  | assertOpenFailed
deriving DecidableEq

/-- Embeds MAVConnTCPClient send_bytes (mavconn_tcp.cpp lines 133-142):
ROS_ASSERT that the channel is open, wrap the bytes in a new MsgBuffer, push it
on tx_q and post do_send with check_tx_state true. -/
def MAVConnTCPClient.send_bytes (s : ClientState) (bytes : List Nat) :
    Except ContractViolation ClientState :=
  if s.socket_open then
    .ok { s with tx_q := s.tx_q ++ [MsgBuffer.mk0 bytes], posts := s.posts + 1 }
  else .error .assertOpenFailed

/-- Embeds MAVConnTCPClient do_send (mavconn_tcp.cpp lines 209-225): return
early when check_tx_state holds and tx_in_progress reads true; return when the
queue is empty; otherwise issue async_send for the front buffer from its cursor
onward. The source never assigns tx_in_progress anywhere, and this embedding
faithfully never does either. An uninitialized read (tx_in_progress = none) is
modelled as reading false, the choice only matters for server accepted objects. -/
def MAVConnTCPClient.do_send (check_tx_state : Bool) (s : ClientState) :
    ClientState :=
  if check_tx_state && (s.tx_in_progress == some true) then s
  else
    match s.tx_q with
    | [] => s
    | buf :: _ =>
      { s with
        outstanding := s.outstanding ++ [(s.nextId, buf.dpos)]
        nextId := s.nextId + 1 }

/-- The queue transform inside async_send_end (mavconn_tcp.cpp lines 235-244):
advance the front buffer cursor by the transferred byte count (size_t
arithmetic, modulo 2 ^ 64) and pop and delete the buffer when no bytes remain.
Empty queue: return unchanged. -/
def advance_front (q : List MsgBuffer) (bytes_transferred : Nat) :
    List MsgBuffer :=
  match q with
  | [] => q
  | buf :: rest =>
    let buf2 : MsgBuffer :=
      { buf with pos := (buf.pos + bytes_transferred) % size_t_mod }
    if buf2.nbytes = 0 then rest else buf2 :: rest

/-- Embeds the error free path of MAVConnTCPClient async_send_end
(mavconn_tcp.cpp lines 227-248): advance and possibly pop the front buffer, then
when the queue is still non empty call do_send with check_tx_state false. -/
def MAVConnTCPClient.async_send_end (bytes_transferred : Nat) (s : ClientState) :
    ClientState :=
  match s.tx_q with
  | [] => s
  | _ :: _ =>
    let s2 := { s with tx_q := advance_front s.tx_q bytes_transferred }
    if s2.tx_q.isEmpty then s2 else MAVConnTCPClient.do_send false s2

/-- Events of the client transmit machine: a send_bytes call (which also posts a
do_send handler with check_tx_state true), the io thread running one such posted
handler, and the error free completion of the outstanding async_send with the
given issue id after transferring n bytes. -/
inductive Ev where
  | send (data : List Nat)
  | runPost
  | complete (id : Nat) (n : Nat)
deriving DecidableEq

/-- One event step of the transmit machine. A completion is valid only for an
issue id that is actually outstanding and may transfer at most the requested
byte count; the transferred bytes are exactly the leading part of the byte range
handed to that async_send call, appended to the wire. -/
def stepEv (s : ClientState) (e : Ev) : ClientState :=
  match e with
  | .send data =>
    match MAVConnTCPClient.send_bytes s data with
    | .ok s2 => s2
    | .error _ => s
  | .runPost =>
    if s.posts = 0 then s
    else MAVConnTCPClient.do_send true { s with posts := s.posts - 1 }
  | .complete id n =>
    match s.outstanding.lookup id with
    | none => s
    | some req =>
      if n ≤ req.length then
        MAVConnTCPClient.async_send_end n
          { s with
            outstanding := s.outstanding.filter (fun p => p.1 != id)
            wire := s.wire ++ req.take n }
      else s

/-- Run the transmit machine from a fresh client mode object. -/
def runTrace (evs : List Ev) : ClientState :=
  evs.foldl stepEv (clientFresh (some false))

/-- Modelled from the spec: a message of the external binary codec
(mavlink_message_t, not part of this repository snapshot), holding its declared
length, id, embedded sender identity, payload and checksum fields. -/
structure MavlinkMessage where
  msgid : Nat
  len : Nat
  sysid : Nat
  compid : Nat
  payload : List Nat
  checksum : Nat
deriving DecidableEq

/-- Modelled from the spec: the codec serialization of a message into its wire
bytes (fixed preamble, length, ids, payload, checksum framing); this is the
MsgBuffer constructor taking a message pointer, which is not part of this
repository snapshot. -/
def serialize (m : MavlinkMessage) : List Nat :=
  254 :: m.len :: m.msgid :: m.sysid :: m.compid :: (m.payload ++ [m.checksum])

/-- Modelled from the spec: mavlink_finalize_message_chan (external codec, not
part of this repository snapshot) stamps the given sender identity onto the
message and recomputes its length dependent checksum fields for the given
channel; the checksum computation of the codec is passed as the parameter crc. -/
def mavlink_finalize_message_chan (crc : Nat → Nat → Nat → List Nat → Nat)
    (m : MavlinkMessage) (sysid compid chan : Nat) : MavlinkMessage :=
  { m with
    sysid := sysid
    compid := compid
    checksum := crc sysid compid chan m.payload }

/-- The buffer built by send_message (mavconn_tcp.cpp lines 148-164): when the
embedded sender identity of the message differs from the given sysid and compid
pair, an explicitly finalized copy is buffered, else the message is buffered as
is. -/
def send_message_buf (crc : Nat → Nat → Nat → List Nat → Nat) (chan : Nat)
    (message : MavlinkMessage) (sysid compid : Nat) : MsgBuffer :=
  if message.sysid ≠ sysid ∨ message.compid ≠ compid then
    MsgBuffer.mk0
      (serialize (mavlink_finalize_message_chan crc message sysid compid chan))
  else
    MsgBuffer.mk0 (serialize message)

/-- Embeds MAVConnTCPClient send_message (mavconn_tcp.cpp lines 144-174):
ROS_ASSERT that the channel is open; build the buffer for the message and the
given identity, push it on tx_q and post do_send with check_tx_state true. -/
def MAVConnTCPClient.send_message (crc : Nat → Nat → Nat → List Nat → Nat)
    (chan : Nat) (s : ClientState) (message : MavlinkMessage)
    (sysid compid : Nat) : Except ContractViolation ClientState :=
  if s.socket_open then
    .ok { s with
          tx_q := s.tx_q ++ [send_message_buf crc chan message sysid compid]
          posts := s.posts + 1 }
  else .error .assertOpenFailed

/-- State of one MAVConnTCPServer object: the listening acceptor, the registry
of accepted clients, whether an async_accept is pending, whether the scratch
client_sock currently holds an accepted connection, the remaining process wide
channel capacity (channes_available, modelled from the spec as a plain count),
the port_closed emission count and the io thread. -/
structure ServerState where
  acceptor_open : Bool
  client_list : List ClientState
  accept_pending : Bool
  client_sock_open : Bool
  channels_avail : Nat
  port_closed_emits : Nat
  io_running : Bool
deriving DecidableEq

/-- A freshly constructed server (mavconn_tcp.cpp lines 253-284): acceptor open
and listening, empty registry, first do_accept posted, io thread running. -/
def serverFresh (avail : Nat) : ServerState :=
  { acceptor_open := true
    client_list := []
    accept_pending := true
    client_sock_open := false
    channels_avail := avail
    port_closed_emits := 0
    io_running := true }

/-- Embeds MAVConnTCPServer close (mavconn_tcp.cpp lines 290-318): a no op when
the acceptor is already non open; otherwise disconnect, close and delete every
registered client and clear the registry, stop io processing, close the
acceptor, emit port_closed and join the io thread. -/
def MAVConnTCPServer.close (s : ServerState) : ServerState :=
  if s.acceptor_open then
    { s with
      client_list := []
      acceptor_open := false
      accept_pending := false
      io_running := false
      port_closed_emits := s.port_closed_emits + 1 }
  else s

/-- Forward one send_bytes call to every client of the registry in order,
threading each client through its own send_bytes (mavconn_tcp.cpp lines
320-327 iterate client_list under the registry lock). -/
def sendAll (clients : List ClientState) (bytes : List Nat) :
    Except ContractViolation (List ClientState) :=
  match clients with
  | [] => .ok []
  | c :: cs =>
    match MAVConnTCPClient.send_bytes c bytes with
    | .error e => .error e
    | .ok c2 =>
      match sendAll cs bytes with
      | .error e => .error e
      | .ok cs2 => .ok (c2 :: cs2)

/-- Embeds MAVConnTCPServer send_bytes (mavconn_tcp.cpp lines 320-327): no
openness assertion of its own; under the lock, forward the bytes to every
registered client. -/
def MAVConnTCPServer.send_bytes (s : ServerState) (bytes : List Nat) :
    Except ContractViolation ServerState :=
  (sendAll s.client_list bytes).map (fun cl => { s with client_list := cl })

/-- Forward one send_message call to every client of the registry in order. -/
def sendAllMsg (crc : Nat → Nat → Nat → List Nat → Nat) (chan : Nat)
    (clients : List ClientState) (message : MavlinkMessage)
    (sysid compid : Nat) : Except ContractViolation (List ClientState) :=
  match clients with
  | [] => .ok []
  | c :: cs =>
    match MAVConnTCPClient.send_message crc chan c message sysid compid with
    | .error e => .error e
    | .ok c2 =>
      match sendAllMsg crc chan cs message sysid compid with
      | .error e => .error e
      | .ok cs2 => .ok (c2 :: cs2)

/-- Embeds MAVConnTCPServer send_message (mavconn_tcp.cpp lines 329-336): no
openness assertion of its own; under the lock, forward the message to every
registered client. -/
def MAVConnTCPServer.send_message (crc : Nat → Nat → Nat → List Nat → Nat)
    (chan : Nat) (s : ServerState) (message : MavlinkMessage)
    (sysid compid : Nat) : Except ContractViolation ServerState :=
  (sendAllMsg crc chan s.client_list message sysid compid).map
    (fun cl => { s with client_list := cl })

/-- Embeds MAVConnTCPServer async_accept_end (mavconn_tcp.cpp lines 348-368).
The pending accept has fired. On error: close the server. On success with no
remaining channel capacity: close only the newly accepted socket and return;
note that this branch does not call do_accept, so no further accept is
scheduled. Otherwise: construct a server accepted client from the socket,
register it, and call do_accept again. -/
def MAVConnTCPServer.async_accept_end (error : Bool) (s : ServerState) :
    ServerState :=
  let s1 := { s with accept_pending := false }
  if error then MAVConnTCPServer.close s1
  else if s1.channels_avail = 0 then
    { s1 with client_sock_open := false }
  else
    { s1 with
      client_list := s1.client_list ++ [MAVConnTCPClient.mk_server_accepted]
      channels_avail := s1.channels_avail - 1
      client_sock_open := false
      accept_pending := true }

/- Helper lemmas shared by the claim theorems. -/

theorem client_close_not_open (cs : ClientState) (h : cs.socket_open = false) :
    MAVConnTCPClient.close cs = cs := by
  simp [MAVConnTCPClient.close, h]

theorem client_close_closes (cs : ClientState) :
    (MAVConnTCPClient.close cs).socket_open = false := by
  rw [MAVConnTCPClient.close]
  cases h : cs.socket_open <;> simp [h]

theorem server_close_not_open (ss : ServerState) (h : ss.acceptor_open = false) :
    MAVConnTCPServer.close ss = ss := by
  simp [MAVConnTCPServer.close, h]

theorem server_close_closes (ss : ServerState) :
    (MAVConnTCPServer.close ss).acceptor_open = false := by
  rw [MAVConnTCPServer.close]
  cases h : ss.acceptor_open <;> simp [h]

/- Claim theorems. -/

/-- A trace of the transmit machine: send_bytes of [1, 2], send_bytes of [3],
then the io thread runs both posted do_send handlers before the first write
completes (tx_in_progress is never assigned true by the source, so the second
handler issues a second async_send of the same front buffer), then the two
outstanding writes complete in full. -/
def c1trace : List Ev :=
  [.send [1, 2], .send [3], .runPost, .runPost, .complete 0 2, .complete 1 2]

/-- C1: the claim states that the bytes transmitted on the socket are exactly
the concatenation of the send_bytes payloads in call order, with no
interleaving and no loss. Evaluated at c1trace, the code transmits
[1, 2, 1, 2]: the first payload is sent twice and the stale second completion
advances the cursor of the second buffer past bytes that were never written, so
the transmitted stream can never be extended to the concatenation [1, 2, 3] of
the payloads, whatever bytes follow. -/
theorem c1_wire_duplication :
    (runTrace c1trace).wire = [1, 2, 1, 2] ∧
    ∀ rest more : List Nat,
      (runTrace c1trace).wire ++ more ≠ [1, 2] ++ [3] ++ rest := by
  have hw : (runTrace c1trace).wire = [1, 2, 1, 2] := rfl
  refine ⟨hw, ?_⟩
  intro rest more h
  rw [hw] at h
  simp only [List.cons_append, List.nil_append] at h
  injection h with h1 h
  injection h with h2 h
  injection h with h3 h
  exact absurd h3 (by decide)

/-- The trace of c1trace again, named for the buffer accounting claim: two
send_bytes calls, both posted drains run before the first write completes, the
two duplicate writes then complete in full. The second, stale completion is
applied to the second buffer. -/
def c2trace : List Ev :=
  [.send [1, 2], .send [3], .runPost, .runPost, .complete 0 2, .complete 1 2]

/-- C2: the claim states that a Transmit Buffer with payload length L never has
its cursor exceed L and is popped exactly when the cumulative bytes written
reach L, that is exactly when remaining is 0. Evaluated at c2trace (reachable
through the overlapping write bug: tx_in_progress is never assigned, so a
duplicate write of the first buffer is issued and its stale completion is
accounted to the second buffer): the second buffer, payload [3] of length 1,
ends with cursor 2 — the cursor exceeds L — and its size_t remainder wraps to
2 ^ 64 - 1 instead of reaching 0, so the buffer is not popped even though no
real bytes of it remain to write, and it never will be popped. -/
theorem c2_cursor_overrun :
    (runTrace c2trace).tx_q = [⟨[3], 2⟩] ∧
    (∃ b ∈ (runTrace c2trace).tx_q, b.data.length < b.pos) ∧
    (runTrace c2trace).tx_q.map MsgBuffer.nbytes = [size_t_mod - 1] := by
  refine ⟨rfl, ?_, rfl⟩
  decide

/-- Trace with one send_bytes call whose posted drain handler has run: one
async_send is outstanding. -/
def c3trace1 : List Ev := [.send [1, 2], .runPost]

/-- Trace with two send_bytes calls whose posted drain handlers both run before
any completion. -/
def c3trace2 : List Ev := [.send [1, 2], .send [3], .runPost, .runPost]

/-- C3: the claim states that tx_in_progress is true exactly while a write is
outstanding, that a drain call with check_tx_state does nothing while a write is
outstanding, and that at most one write attempt is outstanding at any time. The
source never assigns tx_in_progress (its only occurrences are the client mode
initializer and the read in do_send), so after c3trace1 a write is outstanding
while tx_in_progress still reads false, and after c3trace2 two async_send
attempts are outstanding simultaneously, both for the same front buffer. -/
theorem c3_overlapping_writes :
    (runTrace c3trace1).outstanding.length = 1 ∧
    (runTrace c3trace1).tx_in_progress = some false ∧
    (runTrace c3trace2).outstanding = [(0, [1, 2]), (1, [1, 2])] ∧
    (runTrace c3trace2).tx_in_progress = some false :=
  ⟨rfl, rfl, rfl, rfl⟩

/-- C4: close is idempotent on both channel kinds: calling close again on an
already closed channel is a no op that changes no state (on any state with a
non open socket or acceptor it is the identity), and over a channel lifetime of
any positive number k of close calls starting from a freshly constructed
channel, port_closed is emitted exactly once. -/
theorem c4_close_idempotent_once (cs : ClientState) (ss : ServerState)
    (f : Option Bool) (avail : Nat) (k j : Nat) (hk : 1 ≤ k) (hj : 1 ≤ j) :
    MAVConnTCPClient.close (MAVConnTCPClient.close cs) = MAVConnTCPClient.close cs ∧
    (cs.socket_open = false → MAVConnTCPClient.close cs = cs) ∧
    (MAVConnTCPClient.close^[k] (clientFresh f)).port_closed_emits = 1 ∧
    MAVConnTCPServer.close (MAVConnTCPServer.close ss) = MAVConnTCPServer.close ss ∧
    (ss.acceptor_open = false → MAVConnTCPServer.close ss = ss) ∧
    (MAVConnTCPServer.close^[j] (serverFresh avail)).port_closed_emits = 1 := by
  refine ⟨?_, ?_, ?_, ?_, ?_, ?_⟩
  · exact client_close_not_open _ (client_close_closes cs)
  · exact fun h => client_close_not_open cs h
  · obtain ⟨m, rfl⟩ : ∃ m, k = m + 1 := ⟨k - 1, by omega⟩
    rw [Function.iterate_succ_apply,
      Function.iterate_fixed (client_close_not_open _ (client_close_closes _)) m]
    rfl
  · exact server_close_not_open _ (server_close_closes ss)
  · exact fun h => server_close_not_open ss h
  · obtain ⟨m, rfl⟩ : ∃ m, j = m + 1 := ⟨j - 1, by omega⟩
    rw [Function.iterate_succ_apply,
      Function.iterate_fixed (server_close_not_open _ (server_close_closes _)) m]
    rfl

/-- Witness for c4_close_idempotent_once at a fresh client mode channel, a
fresh server with capacity 2, and one close call on each lifetime. -/
theorem c4_close_idempotent_once_witness :
    1 ≤ 1 ∧
    (MAVConnTCPClient.close (MAVConnTCPClient.close (clientFresh (some false))) =
        MAVConnTCPClient.close (clientFresh (some false)) ∧
     ((clientFresh (some false)).socket_open = false →
        MAVConnTCPClient.close (clientFresh (some false)) = clientFresh (some false)) ∧
     (MAVConnTCPClient.close^[1] (clientFresh (some false))).port_closed_emits = 1 ∧
     MAVConnTCPServer.close (MAVConnTCPServer.close (serverFresh 2)) =
        MAVConnTCPServer.close (serverFresh 2) ∧
     ((serverFresh 2).acceptor_open = false →
        MAVConnTCPServer.close (serverFresh 2) = serverFresh 2) ∧
     (MAVConnTCPServer.close^[1] (serverFresh 2)).port_closed_emits = 1) :=
  ⟨by decide,
   c4_close_idempotent_once (clientFresh (some false)) (serverFresh 2)
     (some false) 2 1 1 (by decide) (by decide)⟩

/-- A server at capacity exhaustion: acceptor open and listening, two clients
registered, an accept pending that is about to complete successfully, the
scratch socket holding the newly accepted connection, and zero channels left. -/
def c5state : ServerState :=
  { acceptor_open := true
    client_list := [MAVConnTCPClient.mk_server_accepted,
                    MAVConnTCPClient.mk_server_accepted]
    accept_pending := true
    client_sock_open := true
    channels_avail := 0
    port_closed_emits := 0
    io_running := true }

/-- C5: on a successful accept completion with no channel capacity left, the
handler closes only the newly accepted socket, leaves the client registry
unchanged and does not close the server (no port_closed emission, acceptor
stays open) — but it returns without calling do_accept, so no further accept
operation is pending and the server never accepts another connection, contrary
to the claim that it continues accepting. -/
theorem c5_capacity_reject_stops_accepting :
    (MAVConnTCPServer.async_accept_end false c5state).client_sock_open = false ∧
    (MAVConnTCPServer.async_accept_end false c5state).client_list = c5state.client_list ∧
    (MAVConnTCPServer.async_accept_end false c5state).acceptor_open = true ∧
    (MAVConnTCPServer.async_accept_end false c5state).port_closed_emits = 0 ∧
    (MAVConnTCPServer.async_accept_end false c5state).accept_pending = false :=
  ⟨rfl, rfl, rfl, rfl, rfl⟩

theorem resolve_foldl_last (l : List Endpoint) (port : Nat) (init : Option Endpoint) :
    l.foldl (fun _ q_ep => some { q_ep with port := port }) init =
      match l.getLast? with
      | none => init
      | some q => some { q with port := port } := by
  induction l generalizing init with
  | nil => rfl
  | cons a l ih =>
    rw [List.foldl_cons, ih]
    cases l with
    | nil => rfl
    | cons b l2 =>
      rw [List.getLast?_cons_cons]
      cases h : (b :: l2).getLast? with
      | none => exact absurd (List.getLast?_eq_none_iff.mp h) (by simp)
      | some q => rfl

/-- C6 counterexample: the claim states that resolve takes the first result of
name resolution. With two resolver results, the code returns the second (last)
result with the port overridden, not the first. -/
theorem c6_counterexample :
    resolve_address_tcp [⟨1, 10⟩, ⟨2, 20⟩] false 99 = some ⟨2, 99⟩ ∧
    resolve_address_tcp [⟨1, 10⟩, ⟨2, 20⟩] false 99 ≠ some ⟨1, 99⟩ := by
  refine ⟨rfl, ?_⟩
  decide

/-- C6 (amended): resolve takes the last result of name resolution, overrides
that result with the requested port, and fails exactly when resolution yields
zero results or the underlying resolution mechanism errors. -/
theorem c6_resolve_last_result (results : List Endpoint) (ec : Bool) (port : Nat) :
    resolve_address_tcp results ec port =
      (if ec then none
       else results.getLast?.map (fun q => { q with port := port })) ∧
    (resolve_address_tcp results ec port = none ↔ results = [] ∨ ec = true) := by
  have h1 : resolve_address_tcp results ec port =
      (if ec then none
       else results.getLast?.map (fun q => { q with port := port })) := by
    rw [resolve_address_tcp, resolve_foldl_last]
    cases ec with
    | true => rfl
    | false =>
      simp only [if_neg (by decide : ¬ (false = true))]
      cases results.getLast? with
      | none => rfl
      | some q => rfl
  refine ⟨h1, ?_⟩
  rw [h1]
  cases ec with
  | true => simp
  | false =>
    simp only [if_neg (by decide : ¬ (false = true))]
    simp [Option.map_eq_none', List.getLast?_eq_none_iff]

/-- C7: on an open channel, send_message enqueues the finalized copy of the
message (sender identity stamped, checksum recomputed for this channel) if and
only if the embedded sender identity of the message differs from the given
sysid and compid pair; otherwise the enqueued wire bytes are byte identical to
the serialization of the original message. -/
theorem c7_send_message_refinalize (crc : Nat → Nat → Nat → List Nat → Nat)
    (chan : Nat) (s : ClientState) (m : MavlinkMessage) (sysid compid : Nat)
    (hopen : s.socket_open = true) :
    (m.sysid = sysid ∧ m.compid = compid →
      MAVConnTCPClient.send_message crc chan s m sysid compid =
        .ok { s with
              tx_q := s.tx_q ++ [MsgBuffer.mk0 (serialize m)]
              posts := s.posts + 1 }) ∧
    (m.sysid ≠ sysid ∨ m.compid ≠ compid →
      MAVConnTCPClient.send_message crc chan s m sysid compid =
        .ok { s with
              tx_q := s.tx_q ++ [MsgBuffer.mk0 (serialize
                (mavlink_finalize_message_chan crc m sysid compid chan))]
              posts := s.posts + 1 }) := by
  constructor
  · rintro ⟨h1, h2⟩
    rw [MAVConnTCPClient.send_message, if_pos hopen, send_message_buf,
      if_neg (by simp [h1, h2])]
  · intro h
    rw [MAVConnTCPClient.send_message, if_pos hopen, send_message_buf, if_pos h]

/-- A concrete checksum function standing in for the codec checksum. -/
def c7crc : Nat → Nat → Nat → List Nat → Nat := fun a b c p => a + b + c + p.sum

/-- A concrete message whose embedded sender identity is sysid 3, compid 4. -/
def c7msg : MavlinkMessage :=
  { msgid := 1, len := 2, sysid := 3, compid := 4, payload := [9, 9], checksum := 7 }

/-- Witness for c7_send_message_refinalize at a fresh open channel and the
concrete message c7msg with matching identity pair (3, 4). -/
theorem c7_send_message_refinalize_witness :
    (clientFresh (some false)).socket_open = true ∧
    ((c7msg.sysid = 3 ∧ c7msg.compid = 4 →
      MAVConnTCPClient.send_message c7crc 0 (clientFresh (some false)) c7msg 3 4 =
        .ok { clientFresh (some false) with
              tx_q := (clientFresh (some false)).tx_q ++
                [MsgBuffer.mk0 (serialize c7msg)]
              posts := (clientFresh (some false)).posts + 1 }) ∧
     (c7msg.sysid ≠ 3 ∨ c7msg.compid ≠ 4 →
      MAVConnTCPClient.send_message c7crc 0 (clientFresh (some false)) c7msg 3 4 =
        .ok { clientFresh (some false) with
              tx_q := (clientFresh (some false)).tx_q ++
                [MsgBuffer.mk0 (serialize
                  (mavlink_finalize_message_chan c7crc c7msg 3 4 0))]
              posts := (clientFresh (some false)).posts + 1 })) :=
  ⟨rfl, c7_send_message_refinalize c7crc 0 (clientFresh (some false)) c7msg 3 4 rfl⟩

/-- A client channel that has been closed. -/
def closedClient : ClientState := MAVConnTCPClient.close (clientFresh (some false))

/-- A server channel that has been closed. -/
def closedServer : ServerState := MAVConnTCPServer.close (serverFresh 3)

/-- C8 counterexample: the claim states that invoking send_bytes on a closed
channel of either channel kind is reported as an assertion style precondition
failure. On a closed server channel, send_bytes performs no openness assertion:
it iterates the (empty) client registry and returns successfully, a silent
no op rather than an assertion failure. -/
theorem c8_counterexample :
    closedServer.acceptor_open = false ∧
    MAVConnTCPServer.send_bytes closedServer [7] = .ok closedServer :=
  ⟨rfl, rfl⟩

theorem server_state_empty_list (ss : ServerState) (h : ss.client_list = []) :
    { ss with client_list := ([] : List ClientState) } = ss := by
  cases ss with
  | mk a b c d e f g =>
    obtain rfl : b = [] := h
    rfl

/-- C8 (amended): on the client channel kind, send_bytes and send_message
assert that the channel is open — on a closed client they fail with the
assertion style precondition failure, and on an open client they succeed by
enqueuing. The server channel kind performs no openness assertion of its own:
on a closed server (whose registry is empty, as close clears it) send_bytes
and send_message succeed as silent no ops; only the forwarded per client calls
assert each registered client is open. -/
theorem c8_send_assert_amended (cs cs2 : ClientState) (ss : ServerState)
    (bytes : List Nat) (crc : Nat → Nat → Nat → List Nat → Nat) (chan : Nat)
    (m : MavlinkMessage) (sysid compid : Nat)
    (hclosed : cs.socket_open = false) (hopen : cs2.socket_open = true)
    (hsrv : ss.acceptor_open = false) (hempty : ss.client_list = []) :
    MAVConnTCPClient.send_bytes cs bytes = .error .assertOpenFailed ∧
    MAVConnTCPClient.send_message crc chan cs m sysid compid =
      .error .assertOpenFailed ∧
    MAVConnTCPClient.send_bytes cs2 bytes =
      .ok { cs2 with
            tx_q := cs2.tx_q ++ [MsgBuffer.mk0 bytes]
            posts := cs2.posts + 1 } ∧
    MAVConnTCPServer.send_bytes ss bytes = .ok ss ∧
    MAVConnTCPServer.send_message crc chan ss m sysid compid = .ok ss := by
  refine ⟨?_, ?_, ?_, ?_, ?_⟩
  · simp [MAVConnTCPClient.send_bytes, hclosed]
  · simp [MAVConnTCPClient.send_message, hclosed]
  · simp [MAVConnTCPClient.send_bytes, hopen]
  · rw [MAVConnTCPServer.send_bytes, hempty]
    simp only [sendAll, Except.map]
    rw [server_state_empty_list ss hempty]
  · rw [MAVConnTCPServer.send_message, hempty]
    simp only [sendAllMsg, Except.map]
    rw [server_state_empty_list ss hempty]

/-- Witness for c8_send_assert_amended at a closed client, a fresh open
client, a closed server, concrete bytes, checksum function and message. -/
theorem c8_send_assert_amended_witness :
    closedClient.socket_open = false ∧
    (clientFresh (some false)).socket_open = true ∧
    closedServer.acceptor_open = false ∧
    closedServer.client_list = [] ∧
    (MAVConnTCPClient.send_bytes closedClient [7] = .error .assertOpenFailed ∧
     MAVConnTCPClient.send_message c7crc 0 closedClient c7msg 3 4 =
       .error .assertOpenFailed ∧
     MAVConnTCPClient.send_bytes (clientFresh (some false)) [7] =
       .ok { clientFresh (some false) with
             tx_q := (clientFresh (some false)).tx_q ++ [MsgBuffer.mk0 [7]]
             posts := (clientFresh (some false)).posts + 1 } ∧
     MAVConnTCPServer.send_bytes closedServer [7] = .ok closedServer ∧
     MAVConnTCPServer.send_message c7crc 0 closedServer c7msg 3 4 =
       .ok closedServer) :=
  ⟨rfl, rfl, rfl, rfl,
   c8_send_assert_amended closedClient (clientFresh (some false)) closedServer
     [7] c7crc 0 c7msg 3 4 rfl rfl rfl rfl⟩

/-- A client state with a definite tx_in_progress value and a non empty
transmit queue, to exhibit that the do_send guard reads the flag. -/
def c10qState (b : Bool) : ClientState :=
  { clientFresh (some b) with tx_q := [MsgBuffer.mk0 [5]] }

/-- C10: the client mode constructor initializer list stores false in
tx_in_progress, while the server accepted constructor initializer list does not
mention the member at all, leaving it uninitialized (modelled as none). The
do_send guard with check_tx_state true reads this flag — with the flag true it
returns without issuing a write, with the flag false it issues one — so the
first guarded drain of a server accepted client reads a value no constructor
ever set. -/
theorem c10_ctor_tx_flag :
    (MAVConnTCPClient.mk_client_mode [{ addr := 1, port := 2 }] false 5).map
        (fun s => s.tx_in_progress) = .ok (some false) ∧
    MAVConnTCPClient.mk_server_accepted.tx_in_progress = none ∧
    MAVConnTCPClient.do_send true (c10qState true) = c10qState true ∧
    MAVConnTCPClient.do_send true (c10qState false) ≠ c10qState false := by
  refine ⟨rfl, rfl, rfl, ?_⟩
  decide

end Mavconn
